import Mathlib

/-
Verification of the MacAgent core against its specification.

Shallow embedding of the Python source:
  - Python strings are lists of characters (`PyStr`).
  - JSON values decoded by `json.loads` are the inductive `Json`; the decoder
    itself is the standard library, an external collaborator, so it enters the
    development as an abstract parameter `decode : PyStr → Except PyStr Json`
    (the error carries the `JSONDecodeError` message).
  - Python exceptions are `PyExn` (an exception class tag plus the message that
    `f"{e}"` renders); fallible code returns `Except PyExn _`.
  - The nondeterministic ingredients (wall-clock timing, `uuid4`, the pyautogui
    primitive outcome, the chat-completion transport) are explicit parameters.
-/

namespace MacAgent

/-- Python strings, modelled as lists of characters (code points). -/
abbrev PyStr := List Char

/-- Opaque globally unique identifiers (`uuid.UUID`). -/
abbrev UUID := Nat

/-- UTC instants (`datetime`), modelled as an abstract totally ordered stamp. -/
abbrev Timestamp := Int

/-- Characters removed by Python `str.strip()` (ASCII whitespace). -/
def pySpace (c : Char) : Bool :=
  c = ' ' || c = '\t' || c = '\n' || c = '\r' || c = '\x0b' || c = '\x0c'

/-- Python `str.strip()`: drop leading and trailing whitespace. -/
def pyStrip (s : PyStr) : PyStr :=
  ((s.dropWhile pySpace).reverse.dropWhile pySpace).reverse

/-- Python `s.startswith(pre)`. -/
def pyStartsWith (s pre : PyStr) : Bool :=
  pre.isPrefixOf s

/-- Python `s.endswith(suf)`. -/
def pyEndsWith (s suf : PyStr) : Bool :=
  suf.reverse.isPrefixOf s.reverse

/-- Python `sub in s` (substring containment). -/
def pyContains (s sub : PyStr) : Bool :=
  match s with
  | [] => sub.isEmpty
  | c :: t => sub.isPrefixOf (c :: t) || pyContains t sub

/-- Python `s.lower()`. -/
def pyLower (s : PyStr) : PyStr :=
  s.map Char.toLower

/-- Python truthiness of an optional string (`if not action.text` is true for
both `None` and the empty string). -/
def pyTruthyOptStr : Option PyStr → Bool
  | none => false
  | some s => !s.isEmpty

/-- JSON values as produced by `json.loads`: objects are Python dicts, whose
keys are unique because the decoder keeps the last binding per key. -/
inductive Json where
  | null
  | bool (b : Bool)
  | num (q : ℚ)
  | str (s : PyStr)
  | arr (elems : List Json)
  | obj (fields : List (PyStr × Json))

/-- Python truthiness of a decoded JSON value (`None`, `False`, `0`, `""`,
`[]` and the empty dict are falsy). -/
def Json.truthy : Json → Bool
  | .null => false
  | .bool b => b
  | .num q => decide (q ≠ 0)
  | .str s => !s.isEmpty
  | .arr l => !l.isEmpty
  | .obj l => !l.isEmpty

/-- Exception classes that the parsing and execution paths can raise.
`json.JSONDecodeError` is a subclass of `ValueError` and is tagged as such. -/
inductive PyExnType where
  | valueError
  | keyError
  | attributeError
  | typeError
  | validationError
deriving DecidableEq

/-- A raised Python exception: its class tag and the text `f"{e}"` renders. -/
structure PyExn where
  tag : PyExnType
  msg : PyStr
deriving DecidableEq

/-- Python type name of a decoded JSON value, as it appears in
`AttributeError` messages (int and float are collapsed to `float`; the claims
never distinguish them). -/
def Json.pyTypeName : Json → PyStr
  | .null => "NoneType".data
  | .bool _ => "bool".data
  | .num _ => "float".data
  | .str _ => "str".data
  | .arr _ => "list".data
  | .obj _ => "dict".data

/-- Message of the `AttributeError` raised by calling `.get` on a non-dict. -/
def noGetMsg (j : Json) : PyStr :=
  "'".data ++ j.pyTypeName ++ "' object has no attribute 'get'".data

/-- Python `d.get(k, dflt)`: returns the stored value (even when it is
`None`), the default only when the key is absent; raises `AttributeError`
when the receiver is not a dict. -/
def pyDictGet (j : Json) (k : PyStr) (dflt : Json) : Except PyExn Json :=
  match j with
  | .obj kvs => .ok ((kvs.lookup k).getD dflt)
  | other => .error ⟨.attributeError, noGetMsg other⟩

/-- Python `d[k]` on a dict: `KeyError` (whose `f"{e}"` is the quoted key)
when the key is absent; subscripting a non-dict raises `TypeError`. -/
def pyDictItem (j : Json) (k : PyStr) : Except PyExn Json :=
  match j with
  | .obj kvs =>
    match kvs.lookup k with
    | some v => .ok v
    | none => .error ⟨.keyError, "'".data ++ k ++ "'".data⟩
  | other => .error ⟨.typeError, "'".data ++ other.pyTypeName ++ "' object is not subscriptable".data⟩

/-- Python `for x in v` collecting a list: only an actual JSON array iterates
as the code expects; iterating any other decoded value either raises
`TypeError` outright or (dict/str) yields strings whose `.get` access then
raises — collapsed here to `TypeError`, a corner no claim exercises. -/
def pyIterList (j : Json) : Except PyExn (List Json) :=
  match j with
  | .arr l => .ok l
  | other => .error ⟨.typeError, "'".data ++ other.pyTypeName ++ "' object is not iterable".data⟩

/-- The `ActionType` enumeration of `macagent/core/models.py`. -/
inductive ActionType where
  | click
  | type'
  | scroll
  | wait
  | double_click
  | right_click
deriving DecidableEq

/-- The `ActionStatus` enumeration of `macagent/core/models.py`. -/
inductive ActionStatus where
  | pending
  | success
  | failed
deriving DecidableEq

/-- The `SessionStatus` enumeration of `macagent/core/models.py`. -/
inductive SessionStatus where
  | running
  | paused
  | completed
  | failed
  | cancelled
deriving DecidableEq

/-- The `Coordinates` pydantic model (`x: int`, `y: int`). -/
structure Coordinates where
  x : Int
  y : Int
deriving DecidableEq

/-- The `ActionTarget` pydantic model; `confidence` is a float constrained to
[0, 1] by `Field(ge=0.0, le=1.0)`. -/
structure ActionTarget where
  element : PyStr
  coordinates : Option Coordinates
  confidence : ℚ
deriving DecidableEq

/-- The `Action` pydantic model. The open `target_element` dict is a list of
string-keyed JSON values. -/
structure Action where
  id : UUID
  session_id : UUID
  step_number : Int
  action_type : ActionType
  target_element : Option (List (PyStr × Json))
  target : Option ActionTarget
  text : Option PyStr
  screenshot_url : Option PyStr
  status : ActionStatus
  execution_time : Option Int
  timestamp : Timestamp
  error_message : Option PyStr

/-- The `Session` pydantic model. -/
structure Session where
  id : UUID
  user_id : UUID
  app_name : PyStr
  task_description : PyStr
  status : SessionStatus
  started_at : Timestamp
  ended_at : Option Timestamp
  current_step : Int
deriving DecidableEq

/-- The `VLMAnalysisResult` pydantic model. -/
structure VLMAnalysisResult where
  current_screen : PyStr
  available_actions : List ActionTarget
  recommended_action : Option Action
  reasoning : Option PyStr

/-! ### Action executor (`macagent/vlm/action_executor.py`) -/

/-- The external world of one `ActionExecutor.execute` call: the outcome of
the primitive pyautogui/sleep dispatch when it is actually attempted (either
success or the message of the exception it raised), and the nonnegative
elapsed wall-clock time `int((time.time() - start_time) * 1000)`. -/
structure ExecWorld where
  physOutcome : Except PyStr Unit
  elapsedMs : Nat

/-- Coordinates guard used by `_click`/`_double_click`/`_right_click`/`_type`:
Python `action.target and action.target.coordinates` is truthy exactly when
both are present (a pydantic model instance is always truthy). -/
def Action.clickCoords (a : Action) : Option Coordinates :=
  a.target.bind fun t => t.coordinates

/-- Presence of the numeric-parameter key (`"amount"`/`"duration"`) required
by `_scroll`/`_wait`: `not action.target_element or k not in action.target_element`. -/
def Action.hasParam (a : Action) (k : PyStr) : Bool :=
  match a.target_element with
  | none => false
  | some kvs => (kvs.lookup k).isSome

/-- The kind-specific dispatch inside `ActionExecutor.execute`'s `try` block:
each `_click`-style helper checks its precondition and raises `ValueError`
with the source's message when it fails, and otherwise performs the primitive
effect, whose outcome the world supplies. -/
def dispatch (world : ExecWorld) (a : Action) : Except PyStr Unit :=
  match a.action_type with
  | .click =>
    match a.clickCoords with
    | some _ => world.physOutcome
    | none => .error "Click action requires coordinates".data
  | .double_click =>
    match a.clickCoords with
    | some _ => world.physOutcome
    | none => .error "Double click action requires coordinates".data
  | .right_click =>
    match a.clickCoords with
    | some _ => world.physOutcome
    | none => .error "Right click action requires coordinates".data
  | .type' =>
    if pyTruthyOptStr a.text then world.physOutcome
    else .error "Type action requires text".data
  | .scroll =>
    if a.hasParam "amount".data then world.physOutcome
    else .error "Scroll action requires amount".data
  | .wait =>
    if a.hasParam "duration".data then world.physOutcome
    else .error "Wait action requires duration".data

/-- `ActionExecutor.execute`: runs the dispatch under `try`/`except`/`finally`;
success sets `status=SUCCESS`, any exception is caught and recorded as
`status=FAILED` with `error_message = str(e)`, and the `finally` block always
stamps `execution_time` in whole milliseconds. The action object is mutated
in place and returned; the embedding returns the updated copy. -/
def execute (world : ExecWorld) (action : Action) : Action :=
  let afterTry :=
    match dispatch world action with
    | .ok _ => { action with status := ActionStatus.success }
    | .error msg => { action with status := ActionStatus.failed, error_message := some msg }
  { afterTry with execution_time := some (world.elapsedMs : Int) }

/-! ### Payment-screen detection (`VLMClient.detect_payment_screen`) -/

/-- `VLMClient.detect_payment_screen`: the chat-completion transport is an
external collaborator, so its outcome — the reply text, or any raised
exception — is the argument. On success the code answers whether `"true"`
occurs in the stripped, lowercased reply; the `except Exception` arm returns
`True` for every raised exception, so a failure is never propagated (the
function's type is `Bool`, not an `Except`). -/
def detect_payment_screen (modelReply : Except PyExn PyStr) : Bool :=
  match modelReply with
  | .ok content => pyContains (pyLower (pyStrip content)) "true".data
  | .error _ => true

/-! ### Session cancellation (`macagent/api/routers/sessions.py`) -/

/-- HTTP-layer failures (`fastapi.HTTPException`). -/
inductive HTTPError where
  | httpException (status_code : Nat) (detail : PyStr)
deriving DecidableEq

/-- The `cancel_session` endpoint: `db.get_session` has already resolved the
id to an optional session (the store is an external collaborator); a missing
session is a 404, otherwise the handler sets `status = CANCELLED`,
stamps `ended_at = datetime.utcnow()` unconditionally, and stores the updated
session (`db.update_session` returns the entity it was given). -/
def cancel_session (sessionLookup : Option Session) (now : Timestamp) :
    Except HTTPError Session :=
  match sessionLookup with
  | none => .error (.httpException 404 "Session not found".data)
  | some session =>
    .ok { session with status := SessionStatus.cancelled, ended_at := some now }

/-! ### Recommendation parser (`VLMClient._parse_response`) -/

/-- Pydantic validation of an `int` field (`Coordinates.x`/`y`) against a
decoded JSON value: an integral number is accepted, anything else is a
`ValidationError` (lax numeric-string coercion is not modelled; no claim
exercises it). -/
def coerceInt (j : Json) : Except PyExn Int :=
  match j with
  | .num q => if q.den = 1 then .ok q.num
    else .error ⟨.validationError, "Input should be a valid integer".data⟩
  | _ => .error ⟨.validationError, "Input should be a valid integer".data⟩

/-- Pydantic validation of a `str` field against a decoded JSON value. -/
def asStr (j : Json) : Except PyExn PyStr :=
  match j with
  | .str s => .ok s
  | _ => .error ⟨.validationError, "Input should be a valid string".data⟩

/-- Pydantic validation of an `Optional[str]` field against a decoded JSON
value (`None` is accepted as absent). -/
def asOptStr (j : Json) : Except PyExn (Option PyStr) :=
  match j with
  | .null => .ok none
  | .str s => .ok (some s)
  | _ => .error ⟨.validationError, "Input should be a valid string".data⟩

/-- Constructing an `ActionTarget(element=…, coordinates=…, confidence=…)`:
pydantic validates `element : str` and `confidence : float` with
`Field(ge=0.0, le=1.0)`. -/
def mkActionTarget (elemVal : Json) (coords : Option Coordinates) (confVal : Json) :
    Except PyExn ActionTarget :=
  match elemVal with
  | .str e =>
    match confVal with
    | .num q =>
      if 0 ≤ q ∧ q ≤ 1 then .ok ⟨e, coords, q⟩
      else .error ⟨.validationError, "Input should be less than or equal to 1".data⟩
    | _ => .error ⟨.validationError, "Input should be a valid number".data⟩
  | _ => .error ⟨.validationError, "Input should be a valid string".data⟩

/-- The shared coordinates pattern of `_parse_response` (lines 166–172 and
186–192): `coords_data` has already been fetched with `.get`; when it is
truthy the code builds `Coordinates(x=coords_data["x"], y=coords_data["y"])`
— both item accesses can raise `KeyError` — and otherwise leaves the
coordinates `None`. -/
def parseCoordinates (coordsVal : Json) : Except PyExn (Option Coordinates) :=
  if coordsVal.truthy then do
    let xv ← pyDictItem coordsVal "x".data
    let yv ← pyDictItem coordsVal "y".data
    let x ← coerceInt xv
    let y ← coerceInt yv
    .ok (some ⟨x, y⟩)
  else .ok none

/-- One iteration of the `available_actions` loop: fetch `coordinates` with
`.get`, build optional coordinates, then construct the `ActionTarget` whose
arguments are evaluated left to right — `action_data["element"]` (`KeyError`
when absent), then `action_data.get("confidence", 0.5)`. -/
def parseAvailableAction (entry : Json) : Except PyExn ActionTarget := do
  let coordsVal ← pyDictGet entry "coordinates".data Json.null
  let coords ← parseCoordinates coordsVal
  let elemVal ← pyDictItem entry "element".data
  let confVal ← pyDictGet entry "confidence".data (Json.num (mkRat 1 2))
  mkActionTarget elemVal coords confVal

/-- The `ActionType(value)` enum constructor: maps the six member values and
raises `ValueError` with Python's enum message otherwise. -/
def ActionType.fromStr (s : PyStr) : Except PyExn ActionType :=
  if s = "click".data then .ok .click
  else if s = "type".data then .ok .type'
  else if s = "scroll".data then .ok .scroll
  else if s = "wait".data then .ok .wait
  else if s = "double_click".data then .ok .double_click
  else if s = "right_click".data then .ok .right_click
  else .error ⟨.valueError, "'".data ++ s ++ "' is not a valid ActionType".data⟩

/-- `ActionType(v)` applied to an arbitrary decoded value: a non-string value
is likewise a `ValueError` from the enum constructor. -/
def jsonActionType (j : Json) : Except PyExn ActionType :=
  match j with
  | .str s => ActionType.fromStr s
  | other => .error ⟨.valueError,
      "'".data ++ other.pyTypeName ++ "' is not a valid ActionType".data⟩

/-- Nondeterministic ingredients of one `_parse_response` call: the fresh
`uuid4()` drawn for the placeholder `Action`'s own id and for its
`session_id`, and the `datetime.utcnow()` default of its timestamp. -/
structure ParseEnv where
  freshActionId : UUID
  freshSessionId : UUID
  now : Timestamp

/-- Lines 182–209: when `"recommended_action" in data and
data["recommended_action"]` is truthy, fetch `coordinates`, build the target
from `target` (default `""`) and `confidence` (default `0.8`), map
`action_type` (default `"click"`) through the enum, carry over `text`, and
synthesize the placeholder `Action` with fresh ids, `step_number=0` and
default fields. -/
def parseRecommended (env : ParseEnv) (kvs : List (PyStr × Json)) :
    Except PyExn (Option Action) :=
  match kvs.lookup "recommended_action".data with
  | some rec_data =>
    if rec_data.truthy then do
      let coordsVal ← pyDictGet rec_data "coordinates".data Json.null
      let coords ← parseCoordinates coordsVal
      let targetVal ← pyDictGet rec_data "target".data (Json.str [])
      let confVal ← pyDictGet rec_data "confidence".data (Json.num (mkRat 4 5))
      let target ← mkActionTarget targetVal coords confVal
      let atVal ← pyDictGet rec_data "action_type".data (Json.str "click".data)
      let action_type ← jsonActionType atVal
      let textVal ← pyDictGet rec_data "text".data Json.null
      let text ← asOptStr textVal
      .ok (some
        { id := env.freshActionId
          session_id := env.freshSessionId
          step_number := 0
          action_type := action_type
          target_element := none
          target := some target
          text := text
          screenshot_url := none
          status := ActionStatus.pending
          execution_time := none
          timestamp := env.now
          error_message := none })
    else .ok none
  | none => .ok none

/-- Body of `_parse_response` once `json.loads` has produced a dict: the
`available_actions` loop, the recommended-action block, then the
`VLMAnalysisResult(...)` call, whose arguments are evaluated in order —
`data.get("current_screen", "Unknown")` (cannot fail on a dict), the two
computed locals, and `data.get("recommended_action", {}).get("reasoning")`,
where the inner `.get` raises `AttributeError` whenever the stored
`recommended_action` value is not a dict (in particular when it is an
explicit `null`) — followed by pydantic's field validation in declaration
order. -/
def parseObj (env : ParseEnv) (kvs : List (PyStr × Json)) :
    Except PyExn VLMAnalysisResult := do
  let entries ← pyIterList ((kvs.lookup "available_actions".data).getD (Json.arr []))
  let available_actions ← entries.mapM parseAvailableAction
  let recommended_action ← parseRecommended env kvs
  let csVal := (kvs.lookup "current_screen".data).getD (Json.str "Unknown".data)
  let reasoningVal ← pyDictGet ((kvs.lookup "recommended_action".data).getD (Json.obj []))
      "reasoning".data Json.null
  let current_screen ← asStr csVal
  let reasoning ← asOptStr reasoningVal
  .ok { current_screen := current_screen
        available_actions := available_actions
        recommended_action := recommended_action
        reasoning := reasoning }

/-- Dispatch on the decoded top-level value: the first dict access,
`data.get("available_actions", [])`, raises `AttributeError` when `json.loads`
returned something other than an object, so every later access sees a dict. -/
def parseData (env : ParseEnv) (data : Json) : Except PyExn VLMAnalysisResult :=
  match data with
  | .obj kvs => parseObj env kvs
  | other => .error ⟨.attributeError, noGetMsg other⟩

/-- Lines 152–159 plus the final `.strip()` of line 161: trim the response,
strip a leading language-tagged or bare fence and a trailing fence, and trim
again before decoding. -/
def extractJson (s : PyStr) : PyStr :=
  let t0 := pyStrip s
  let t1 := if pyStartsWith t0 "```json".data then t0.drop 7 else t0
  let t2 := if pyStartsWith t1 "```".data then t1.drop 3 else t1
  let t3 := if pyEndsWith t2 "```".data then t2.take (t2.length - 3) else t2
  pyStrip t3

/-- `VLMClient._parse_response`: everything inside the `try` block — the
markdown stripping, `json.loads` (the standard library decoder, an abstract
parameter whose error carries the `JSONDecodeError` message, itself a
`ValueError` subclass), and the structure building — runs under a single
`except Exception` arm that re-raises every failure as
`ValueError(f"Failed to parse VLM response: ")` followed by the rendering of
the caught exception. -/
def parse_response (decode : PyStr → Except PyStr Json) (env : ParseEnv)
    (response_text : PyStr) : Except PyExn VLMAnalysisResult :=
  let inner : Except PyExn VLMAnalysisResult :=
    match decode (extractJson response_text) with
    | .error msg => .error ⟨.valueError, msg⟩
    | .ok data => parseData env data
  match inner with
  | .ok r => .ok r
  | .error e => .error ⟨.valueError, "Failed to parse VLM response: ".data ++ e.msg⟩

/-! ### Action confirmation (`macagent/api/routers/actions.py`) -/

/-- Rendering of an `ActionStatus` inside an f-string: a `str`-mixin enum
formats as its member value. -/
def ActionStatus.value : ActionStatus → PyStr
  | .pending => "pending".data
  | .success => "success".data
  | .failed => "failed".data

/-- Detail text of the 400 response raised when the action is not pending. -/
def cannotConfirmMsg (st : ActionStatus) : PyStr :=
  "Cannot confirm action in ".data ++ st.value ++ " state".data

/-- Observable outcome of one `confirm_action` call: the HTTP-level result
(the updated action, or an `HTTPException`) together with whether the
physical `ActionExecutor.execute` was invoked. -/
structure ConfirmOutcome where
  result : Except HTTPError Action
  executorInvoked : Bool

/-- The `confirm_action` endpoint: `db.get_action` has already resolved the
id to an optional action (the store collaborator; `db.update_action` stores
and returns the entity it is given). A missing action is a 404; a
non-`PENDING` action is a 400 (`InvalidTransition`); `confirmed=False` marks
the action `FAILED` with the rejection message and returns without touching
the executor; otherwise the action is executed and the executed copy
returned. -/
def confirm_action (world : ExecWorld) (actionLookup : Option Action)
    (confirmed : Bool) : ConfirmOutcome :=
  match actionLookup with
  | none => ⟨.error (.httpException 404 "Action not found".data), false⟩
  | some action =>
    if action.status ≠ ActionStatus.pending then
      ⟨.error (.httpException 400 (cannotConfirmMsg action.status)), false⟩
    else if !confirmed then
      ⟨.ok { action with
              status := ActionStatus.failed
              error_message := some "Action not confirmed by user".data }, false⟩
    else
      ⟨.ok (execute world action), true⟩

/-- Concrete click action with no coordinates, for the C2 witness. -/
def actionNoCoords : Action where
  id := 1
  session_id := 2
  step_number := 1
  action_type := ActionType.click
  target_element := none
  target := some { element := "Test Button".data, coordinates := none, confidence := 9/10 }
  text := none
  screenshot_url := none
  status := ActionStatus.pending
  execution_time := none
  timestamp := 0
  error_message := none

/-- Concrete executor world, for witnesses. -/
def world0 : ExecWorld where
  physOutcome := .ok ()
  elapsedMs := 5

/-- Concrete running session, for the C8 witness. -/
def runningSession : Session where
  id := 7
  user_id := 3
  app_name := "TestApp".data
  task_description := "do the thing".data
  status := SessionStatus.running
  started_at := 10
  ended_at := none
  current_step := 0

/-- Concrete pending action, for the C3 counterexample and witness. -/
def pendingAction3 : Action where
  id := 11
  session_id := 12
  step_number := 3
  action_type := ActionType.click
  target_element := none
  target := some { element := "Confirm".data, coordinates := some ⟨10, 20⟩, confidence := 4/5 }
  text := none
  screenshot_url := none
  status := ActionStatus.pending
  execution_time := none
  timestamp := 0
  error_message := none

/-- Shared concrete parse environment for witnesses and counterexamples. -/
def env0 : ParseEnv where
  freshActionId := 0
  freshSessionId := 0
  now := 0

/-- Concrete non-JSON input, for the C4 witness. -/
def notJson4 : PyStr := "This is not valid JSON".data

/-- Concrete decoder that rejects everything, for the C4 witness. -/
def decode4 : PyStr → Except PyStr Json :=
  fun _ => .error "Expecting value: line 1 column 1 (char 0)".data

/-- Concrete response body carrying an explicit `"recommended_action": null`,
mirroring the repository's own `test_parse_response_with_markdown_wrapper`
fixture, for C10. -/
def body10 : PyStr :=
  "\x7b\n    \"current_screen\": \"Test Screen\",\n    \"available_actions\": [],\n    \"recommended_action\": null\n\x7d".data

/-- Fields of the decoded object for `body10`. -/
def fields10 : List (PyStr × Json) :=
  [("current_screen".data, Json.str "Test Screen".data),
   ("available_actions".data, Json.arr []),
   ("recommended_action".data, Json.null)]

/-- Decoded object for `body10`. -/
def obj10 : Json := Json.obj fields10

/-- Concrete decoder for the C10 input. -/
def decode10 : PyStr → Except PyStr Json :=
  fun s => if s = body10 then .ok obj10
    else .error "Expecting value: line 1 column 1 (char 0)".data

/-- Raw markdown-wrapped response for C10. -/
def raw10 : PyStr := "```json\n".data ++ body10 ++ "\n```".data

/-- Concrete response body whose single `available_actions` entry has a
coordinates object with `x` but no `y`, for the C5 counterexample. -/
def body5 : PyStr :=
  "\x7b\"available_actions\": [\x7b\"element\": \"btn\", \"coordinates\": \x7b\"x\": 100\x7d\x7d]\x7d".data

/-- Decoded object for `body5`. -/
def obj5 : Json :=
  Json.obj [("available_actions".data,
    Json.arr [Json.obj [("element".data, Json.str "btn".data),
      ("coordinates".data, Json.obj [("x".data, Json.num 100)])]])]

/-- Concrete decoder for the C5 input. -/
def decode5 : PyStr → Except PyStr Json :=
  fun s => if s = body5 then .ok obj5
    else .error "Expecting value: line 1 column 1 (char 0)".data

/-- Concrete well-formed entry, for the C5 amended witness. -/
def entry5 : List (PyStr × Json) :=
  [("element".data, Json.str "btn".data),
   ("coordinates".data, Json.obj [("x".data, Json.num ((100 : Int) : ℚ)),
     ("y".data, Json.num ((200 : Int) : ℚ))])]

/-- Concrete entry whose truthy coordinates object has `y` but no `x`, for
the failure half of the C5 amended witness. -/
def entry5x : List (PyStr × Json) :=
  [("element".data, Json.str "btn".data),
   ("coordinates".data, Json.obj [("y".data, Json.num ((5 : Int) : ℚ))])]

/-- Exception-kind observer on a parse result: the class tag of the raised
exception, when the call failed. -/
def raisedKind (r : Except PyExn VLMAnalysisResult) : Option PyExnType :=
  match r with
  | .ok _ => none
  | .error ex => some ex.tag

/-- Concrete response body whose `recommended_action.action_type` is the
unknown string "fly", for the C6 counterexample. -/
def body6 : PyStr :=
  "\x7b\"available_actions\": [], \"recommended_action\": \x7b\"action_type\": \"fly\", \"target\": \"Pay\"\x7d\x7d".data

/-- Decoded object for `body6`. -/
def obj6 : Json :=
  Json.obj [("available_actions".data, Json.arr []),
    ("recommended_action".data,
      Json.obj [("action_type".data, Json.str "fly".data),
        ("target".data, Json.str "Pay".data)])]

/-- Concrete non-JSON input, for the C6 counterexample's comparison leg. -/
def notJson6 : PyStr := "not json at all".data

/-- Concrete decoder for the C6 inputs. -/
def decode6 : PyStr → Except PyStr Json :=
  fun s => if s = body6 then .ok obj6
    else .error "Expecting value: line 1 column 1 (char 0)".data

/-- Concrete decoder for the C6 amended witness. -/
def decodeW6 : PyStr → Except PyStr Json :=
  fun _ => .ok (Json.obj [("available_actions".data, Json.arr []),
    ("recommended_action".data,
      Json.obj [("action_type".data, Json.str "fly".data)])])

/-- Concrete bare JSON object payload, for the C9 witness. -/
def body9 : PyStr := "\x7b\x7d".data

/-- Concrete decoder accepting exactly `body9`, for the C9 witness. -/
def decode9 : PyStr → Except PyStr Json :=
  fun s => if s = body9 then .ok (Json.obj [])
    else .error "Expecting value: line 1 column 1 (char 0)".data

/-! ### Theorems -/

/-- Reduction of the Except monad's bind at a success value. -/
theorem okBind {ε α β : Type} (a : α) (f : α → Except ε β) :
    (Except.ok a : Except ε α) >>= f = f a := rfl

/-- Reduction of the Except monad's bind at an error value. -/
theorem errBind {ε α β : Type} (ex : ε) (f : α → Except ε β) :
    (Except.error ex : Except ε α) >>= f = Except.error ex := rfl

/-- The Except monad's pure is ok. -/
theorem pureEqOk {ε α : Type} (a : α) : (pure a : Except ε α) = Except.ok a := rfl

/-- C1: `detect_payment_screen` returns `true` whenever the underlying model
call or the handling of its reply raises, regardless of the exception's
class or message; the failure is consumed by the `except` arm, never
propagated (the embedding's return type is a plain `Bool`). -/
theorem detect_payment_screen_failsafe :
    ∀ e : PyExn, detect_payment_screen (Except.error e) = true :=
  fun _ => rfl

/-- C7: `execute` only writes `status`, `execution_time` and (on the failure
path) `error_message`: the action's identity, session reference, step number
and every other field are returned unchanged, `execution_time` is always set
to the measured duration, and on the success path even `error_message` is
left as it was. -/
theorem execute_frame (world : ExecWorld) (a : Action) :
    (execute world a).id = a.id ∧
    (execute world a).session_id = a.session_id ∧
    (execute world a).step_number = a.step_number ∧
    (execute world a).action_type = a.action_type ∧
    (execute world a).target_element = a.target_element ∧
    (execute world a).target = a.target ∧
    (execute world a).text = a.text ∧
    (execute world a).screenshot_url = a.screenshot_url ∧
    (execute world a).timestamp = a.timestamp ∧
    (execute world a).execution_time = some (world.elapsedMs : Int) ∧
    ((execute world a).status = ActionStatus.success →
      (execute world a).error_message = a.error_message) := by
  unfold execute
  cases dispatch world a <;> simp

/-- C2: executing a click, double-click or right-click action whose target
coordinates are absent yields `status=Failed`, an error message that mentions
"coordinates", and a nonnegative `execution_time` that is always stamped; the
`ValueError` is caught inside `execute` and never escapes (the embedding is a
total function into `Action`). -/
theorem execute_missing_coordinates (world : ExecWorld) (a : Action)
    (hk : a.action_type = ActionType.click ∨ a.action_type = ActionType.double_click ∨
      a.action_type = ActionType.right_click)
    (hc : a.clickCoords = none) :
    (execute world a).status = ActionStatus.failed ∧
    (∃ msg, (execute world a).error_message = some msg ∧
      pyContains msg "coordinates".data = true) ∧
    (execute world a).execution_time = some (world.elapsedMs : Int) ∧
    (0 : Int) ≤ (world.elapsedMs : Int) := by
  unfold execute dispatch
  rcases hk with h | h | h <;> rw [h] <;> rw [hc] <;>
    exact ⟨rfl, ⟨_, rfl, by decide⟩, rfl, Int.natCast_nonneg _⟩

/-- Witness for C2 at a concrete click action without coordinates. -/
theorem execute_missing_coordinates_witness :
    (execute world0 actionNoCoords).status = ActionStatus.failed ∧
    (∃ msg, (execute world0 actionNoCoords).error_message = some msg ∧
      pyContains msg "coordinates".data = true) ∧
    (execute world0 actionNoCoords).execution_time = some ((5 : Nat) : Int) ∧
    (0 : Int) ≤ ((5 : Nat) : Int) :=
  execute_missing_coordinates world0 actionNoCoords (Or.inl rfl) rfl

/-- C8: cancelling a session that is in a non-terminal state (`Running` or
`Paused`) succeeds, sets its status to `Cancelled` and stamps a non-null end
time. -/
theorem cancel_session_nonterminal (s : Session) (now : Timestamp)
    (_h : s.status = SessionStatus.running ∨ s.status = SessionStatus.paused) :
    ∃ s', cancel_session (some s) now = Except.ok s' ∧
      s'.status = SessionStatus.cancelled ∧
      s'.ended_at = some now ∧ s'.ended_at ≠ none := by
  refine ⟨_, rfl, rfl, rfl, by simp⟩

/-- Witness for C8 at a concrete running session. -/
theorem cancel_session_nonterminal_witness :
    ∃ s', cancel_session (some runningSession) 42 = Except.ok s' ∧
      s'.status = SessionStatus.cancelled ∧
      s'.ended_at = some 42 ∧ s'.ended_at ≠ none :=
  cancel_session_nonterminal runningSession 42 (Or.inl rfl)

/-- C3 counterexample: rejecting a pending action produces the error message
"Action not confirmed by user", which is not the spec sentence's
"rejected by caller" and does not even contain "rejected"; only the weaker
"contains 'not confirmed'" reading holds. -/
theorem confirm_reject_message_counterexample :
    (confirm_action world0 (some pendingAction3) false).result =
      Except.ok { pendingAction3 with
        status := ActionStatus.failed
        error_message := some "Action not confirmed by user".data } ∧
    "Action not confirmed by user".data ≠ "rejected by caller".data ∧
    pyContains "Action not confirmed by user".data "rejected".data = false ∧
    pyContains "Action not confirmed by user".data "not confirmed".data = true :=
  ⟨rfl, by decide, by decide, by decide⟩

/-- C3 (amended): `confirm_action` requires status `Pending` and fails with
the 400 `InvalidTransition` response otherwise, without invoking the
executor; rejecting a pending action (`confirmed=false`) transitions it
directly to `Failed` with the error message "Action not confirmed by user"
(which contains "not confirmed" but is not "rejected by caller"), again
without invoking the physical executor. -/
theorem confirm_action_spec (world : ExecWorld) (a : Action) (confirmed : Bool) :
    (a.status ≠ ActionStatus.pending →
      (confirm_action world (some a) confirmed).result =
        Except.error (HTTPError.httpException 400 (cannotConfirmMsg a.status)) ∧
      (confirm_action world (some a) confirmed).executorInvoked = false) ∧
    (a.status = ActionStatus.pending → confirmed = false →
      (confirm_action world (some a) confirmed).result =
        Except.ok { a with
          status := ActionStatus.failed
          error_message := some "Action not confirmed by user".data } ∧
      (confirm_action world (some a) confirmed).executorInvoked = false ∧
      pyContains "Action not confirmed by user".data "not confirmed".data = true) := by
  constructor
  · intro h
    simp [confirm_action, h]
  · intro h hc
    subst hc
    simp only [confirm_action, h]
    exact ⟨by simp, by simp, by decide⟩

/-- Witness for the amended C3 at a concrete pending action. -/
theorem confirm_action_spec_witness :
    (confirm_action world0 (some pendingAction3) false).result =
      Except.ok { pendingAction3 with
        status := ActionStatus.failed
        error_message := some "Action not confirmed by user".data } ∧
    (confirm_action world0 (some pendingAction3) false).executorInvoked = false ∧
    pyContains "Action not confirmed by user".data "not confirmed".data = true :=
  (confirm_action_spec world0 pendingAction3 false).2 rfl rfl

/-- C4: whenever `json.loads` fails on the stripped text, `_parse_response`
fails with the single `ValueError("Failed to parse VLM response: …")` kind
carrying the decode diagnostic, and — second conjunct — on every input the
call either returns a complete result or fails with that same `ValueError`
kind, never a different one; being a pure function of its input, it mutates
no caller state. -/
theorem parse_response_malformed (decode : PyStr → Except PyStr Json)
    (env : ParseEnv) (s msg : PyStr)
    (h : decode (extractJson s) = Except.error msg) :
    parse_response decode env s =
      Except.error ⟨PyExnType.valueError,
        "Failed to parse VLM response: ".data ++ msg⟩ ∧
    ∀ t, (∃ r, parse_response decode env t = Except.ok r) ∨
      (∃ m, parse_response decode env t =
        Except.error ⟨PyExnType.valueError, m⟩) := by
  constructor
  · simp [parse_response, h]
  · intro t
    cases hd : decode (extractJson t) with
    | error m =>
      exact Or.inr ⟨"Failed to parse VLM response: ".data ++ m,
        by simp [parse_response, hd]⟩
    | ok d =>
      cases hp : parseData env d with
      | ok r => exact Or.inl ⟨r, by simp [parse_response, hd, hp]⟩
      | error e =>
        exact Or.inr ⟨"Failed to parse VLM response: ".data ++ e.msg,
          by simp [parse_response, hd, hp]⟩

/-- Witness for C4 at a concrete non-JSON input. -/
theorem parse_response_malformed_witness :
    parse_response decode4 env0 notJson4 =
      Except.error ⟨PyExnType.valueError,
        "Failed to parse VLM response: ".data ++
          "Expecting value: line 1 column 1 (char 0)".data⟩ ∧
    ∀ t, (∃ r, parse_response decode4 env0 t = Except.ok r) ∨
      (∃ m, parse_response decode4 env0 t =
        Except.error ⟨PyExnType.valueError, m⟩) :=
  parse_response_malformed decode4 env0 notJson4 _ rfl

/-- C10: on every otherwise well-formed response whose `recommended_action`
is an explicit `null` — any decoder, environment and decoded object whose
stored `recommended_action` value is `null` and whose `available_actions`
stage iterates and builds successfully — the recommendation-building branch
correctly skips the falsy value, yet the parse still raises: the reasoning
extraction `data.get("recommended_action", \x7b\x7d).get("reasoning")` receives
the stored `None` (not the default dict) and dereferences it, so the whole
call fails with the wrapped `AttributeError` instead of returning a result
with an absent recommendation. -/
theorem parse_null_recommended_action_raises (decode : PyStr → Except PyStr Json)
    (env : ParseEnv) (s : PyStr) (kvs : List (PyStr × Json))
    (entries : List Json) (ts : List ActionTarget)
    (hdec : decode (extractJson s) = Except.ok (Json.obj kvs))
    (hra : kvs.lookup "recommended_action".data = some Json.null)
    (hiter : pyIterList ((kvs.lookup "available_actions".data).getD (Json.arr [])) =
      Except.ok entries)
    (hmap : entries.mapM parseAvailableAction = Except.ok ts) :
    parse_response decode env s =
      Except.error ⟨PyExnType.valueError,
        "Failed to parse VLM response: 'NoneType' object has no attribute 'get'".data⟩ ∧
    parseRecommended env kvs = Except.ok none := by
  have hrec : parseRecommended env kvs = Except.ok none := by
    simp only [parseRecommended, hra, Json.truthy, Bool.false_eq_true, if_false]
  refine ⟨?_, hrec⟩
  simp only [parse_response, parseData, parseObj, hdec, hiter, hmap, hrec, hra,
    pyDictGet, noGetMsg, Json.pyTypeName, Option.getD_some, okBind, errBind,
    pureEqOk]
  rfl

/-- Witness for C10 at the repository test fixture: the markdown-wrapped
body with `"recommended_action": null`, a concrete decoder and environment. -/
theorem parse_null_recommended_action_raises_witness :
    parse_response decode10 env0 raw10 =
      Except.error ⟨PyExnType.valueError,
        "Failed to parse VLM response: 'NoneType' object has no attribute 'get'".data⟩ ∧
    parseRecommended env0 fields10 = Except.ok none :=
  parse_null_recommended_action_raises decode10 env0 raw10 fields10 [] []
    (by rfl) rfl rfl rfl

/-- C5 counterexample: an `available_actions` entry whose coordinates object
is present (truthy) but lacks `y` does not yield a coordinate-free candidate
— the unconditional `coords_data["y"]` access raises `KeyError`, the entry
yields nothing and the whole parse fails with the wrapped `ValueError`. -/
theorem available_coords_partial_counterexample :
    parse_response decode5 env0 body5 =
      Except.error ⟨PyExnType.valueError,
        "Failed to parse VLM response: 'y'".data⟩ ∧
    parseAvailableAction (Json.obj [("element".data, Json.str "btn".data),
        ("coordinates".data, Json.obj [("x".data, Json.num 100)])]) =
      Except.error ⟨PyExnType.keyError, "'y'".data⟩ := by
  constructor <;> rfl

/-- C5 (amended): for an `available_actions` entry with an `element` string
and no explicit confidence, the candidate's confidence defaults to 0.5;
the coordinates are left absent when the `coordinates` value is missing or
falsy (e.g. `null` or an empty object), and parsed when the coordinates
object carries both integral `x` and `y`; but when the coordinates object
is truthy and lacks `x` or `y`, the entry yields no candidate at all: the
builder (and with it the whole parse) fails. -/
theorem parseAvailableAction_amended (fields : List (PyStr × Json)) :
    (∀ e : PyStr, fields.lookup "element".data = some (Json.str e) →
      fields.lookup "confidence".data = none →
      (fields.lookup "coordinates".data = none →
        parseAvailableAction (Json.obj fields) = Except.ok ⟨e, none, 1/2⟩) ∧
      (∀ cv, fields.lookup "coordinates".data = some cv → cv.truthy = false →
        parseAvailableAction (Json.obj fields) = Except.ok ⟨e, none, 1/2⟩) ∧
      (∀ cfs (x y : Int), fields.lookup "coordinates".data = some (Json.obj cfs) →
        cfs ≠ [] →
        cfs.lookup "x".data = some (Json.num (x : ℚ)) →
        cfs.lookup "y".data = some (Json.num (y : ℚ)) →
        parseAvailableAction (Json.obj fields) =
          Except.ok ⟨e, some ⟨x, y⟩, 1/2⟩)) ∧
    (∀ cfs, fields.lookup "coordinates".data = some (Json.obj cfs) →
      cfs ≠ [] →
      cfs.lookup "x".data = none ∨ cfs.lookup "y".data = none →
      ∃ exn, parseAvailableAction (Json.obj fields) = Except.error exn) := by
  constructor
  · intro e he hconf
    refine ⟨?_, ?_, ?_⟩
    · intro hco
      simp only [parseAvailableAction, pyDictGet, pyDictItem, parseCoordinates,
        mkActionTarget, Json.truthy, hco, he, hconf, Option.getD, okBind,
        errBind, pureEqOk, Bool.false_eq_true, if_false]
      norm_num [Rat.mkRat_eq_divInt, Rat.divInt_eq_div]
    · intro cv hco hf
      simp only [parseAvailableAction, pyDictGet, pyDictItem, parseCoordinates,
        mkActionTarget, hco, hf, he, hconf, Option.getD, okBind, errBind,
        pureEqOk, Bool.false_eq_true, if_false]
      norm_num [Rat.mkRat_eq_divInt, Rat.divInt_eq_div]
    · intro cfs x y hco hne hx hy
      have hni : cfs.isEmpty = false := by
        cases cfs with
        | nil => exact absurd rfl hne
        | cons p l => rfl
      simp only [parseAvailableAction, pyDictGet, pyDictItem, parseCoordinates,
        mkActionTarget, coerceInt, Json.truthy, hco, hni, he, hconf, hx, hy,
        Option.getD, okBind, errBind, pureEqOk, Bool.not_false, if_true,
        Rat.den_intCast, Rat.num_intCast]
      norm_num [Rat.mkRat_eq_divInt, Rat.divInt_eq_div]
  · intro cfs hco hne hxy
    have hni : cfs.isEmpty = false := by
      cases cfs with
      | nil => exact absurd rfl hne
      | cons p l => rfl
    rcases hxy with hx | hy
    · refine ⟨⟨PyExnType.keyError, "'".data ++ "x".data ++ "'".data⟩, ?_⟩
      simp only [parseAvailableAction, pyDictGet, pyDictItem, parseCoordinates,
        hco, hni, hx, Option.getD, okBind, errBind, Json.truthy,
        Bool.not_false, if_true]
    · cases hx : cfs.lookup "x".data with
      | none =>
        refine ⟨⟨PyExnType.keyError, "'".data ++ "x".data ++ "'".data⟩, ?_⟩
        simp only [parseAvailableAction, pyDictGet, pyDictItem, parseCoordinates,
          hco, hni, hx, Option.getD, okBind, errBind, Json.truthy,
          Bool.not_false, if_true]
      | some v =>
        refine ⟨⟨PyExnType.keyError, "'".data ++ "y".data ++ "'".data⟩, ?_⟩
        simp only [parseAvailableAction, pyDictGet, pyDictItem, parseCoordinates,
          hco, hni, hx, hy, Option.getD, okBind, errBind, Json.truthy,
          Bool.not_false, if_true]

/-- Witness for the amended C5: both coordinates present with an absent
confidence produce the candidate with parsed coordinates and the 0.5
default, and a truthy coordinates object lacking `x` makes the builder
fail. -/
theorem parseAvailableAction_amended_witness :
    (parseAvailableAction (Json.obj entry5) =
      Except.ok ⟨"btn".data, some ⟨100, 200⟩, 1/2⟩) ∧
    (∃ exn, parseAvailableAction (Json.obj entry5x) = Except.error exn) :=
  ⟨((parseAvailableAction_amended entry5).1 "btn".data rfl rfl).2.2
      [("x".data, Json.num ((100 : Int) : ℚ)), ("y".data, Json.num ((200 : Int) : ℚ))]
      100 200 rfl (List.cons_ne_nil _ _) rfl rfl,
    (parseAvailableAction_amended entry5x).2
      [("y".data, Json.num ((5 : Int) : ℚ))] rfl (List.cons_ne_nil _ _)
      (Or.inl rfl)⟩

/-- C6 counterexample: an unknown `action_type` makes the parse fail, but
not with a distinct error kind — the raised exception is the very same
`ValueError("Failed to parse VLM response: …")` class as the one raised for
undecodable input; the two are distinguishable only by message text. -/
theorem unknown_action_kind_counterexample :
    parse_response decode6 env0 body6 =
      Except.error ⟨PyExnType.valueError,
        "Failed to parse VLM response: 'fly' is not a valid ActionType".data⟩ ∧
    raisedKind (parse_response decode6 env0 body6) =
      raisedKind (parse_response decode6 env0 notJson6) ∧
    raisedKind (parse_response decode6 env0 notJson6) =
      some PyExnType.valueError := by
  refine ⟨?_, ?_, ?_⟩ <;> rfl

/-- C6 (amended): a non-null `recommended_action` whose `action_type` string
matches none of the six known kinds makes the parser fail — but with the
same single `ValueError("Failed to parse VLM response: …")` kind used for
malformed responses, its message embedding the enum's complaint; there is no
distinct `UnknownActionKind` error kind in the code. -/
theorem parse_unknown_action_kind (decode : PyStr → Except PyStr Json)
    (env : ParseEnv) (s : PyStr) (kvs recFields : List (PyStr × Json)) (bad : PyStr)
    (hdec : decode (extractJson s) = Except.ok (Json.obj kvs))
    (haa : kvs.lookup "available_actions".data = some (Json.arr []))
    (hra : kvs.lookup "recommended_action".data = some (Json.obj recFields))
    (hne : recFields ≠ [])
    (hco : recFields.lookup "coordinates".data = none)
    (hta : recFields.lookup "target".data = none)
    (hcf : recFields.lookup "confidence".data = none)
    (hat : recFields.lookup "action_type".data = some (Json.str bad))
    (h1 : bad ≠ "click".data) (h2 : bad ≠ "type".data) (h3 : bad ≠ "scroll".data)
    (h4 : bad ≠ "wait".data) (h5 : bad ≠ "double_click".data)
    (h6 : bad ≠ "right_click".data) :
    parse_response decode env s =
      Except.error ⟨PyExnType.valueError,
        "Failed to parse VLM response: ".data ++
          ("'".data ++ bad ++ "' is not a valid ActionType".data)⟩ := by
  have hni : recFields.isEmpty = false := by
    cases recFields with
    | nil => exact absurd rfl hne
    | cons p l => rfl
  have harith : ((0 : ℚ) ≤ mkRat 4 5 ∧ (mkRat 4 5 : ℚ) ≤ 1) := by decide
  simp only [parse_response, hdec, parseData, parseObj, parseRecommended,
    pyIterList, pyDictGet, parseCoordinates, mkActionTarget, jsonActionType,
    ActionType.fromStr, Json.truthy, haa, hra, hni, hco, hta, hcf, hat,
    List.mapM, List.mapM.loop, List.reverse_nil, Option.getD, okBind, errBind,
    pureEqOk, Bool.not_false, Bool.false_eq_true, if_true, if_false,
    if_pos harith, if_neg h1, if_neg h2, if_neg h3, if_neg h4, if_neg h5,
    if_neg h6]

/-- Witness for the amended C6 at a concrete unknown action type. -/
theorem parse_unknown_action_kind_witness :
    parse_response decodeW6 env0 "x".data =
      Except.error ⟨PyExnType.valueError,
        "Failed to parse VLM response: ".data ++
          ("'".data ++ "fly".data ++ "' is not a valid ActionType".data)⟩ :=
  parse_unknown_action_kind decodeW6 env0 "x".data
    [("available_actions".data, Json.arr []),
     ("recommended_action".data,
       Json.obj [("action_type".data, Json.str "fly".data)])]
    [("action_type".data, Json.str "fly".data)] "fly".data
    rfl rfl rfl (List.cons_ne_nil _ _) rfl rfl rfl rfl
    (by decide) (by decide) (by decide) (by decide) (by decide) (by decide)


/-- Helper: dropWhile never lengthens a list. -/
theorem dropWhile_length_le (f : Char → Bool) (l : PyStr) :
    (l.dropWhile f).length ≤ l.length := by
  induction l with
  | nil => simp
  | cons a t ih =>
    rw [List.dropWhile_cons]
    cases h : f a with
    | true => simp only [if_true]; exact Nat.le_succ_of_le ih
    | false => simp

/-- Helper: a list fixed by dropWhile stays fixed after appending. -/
theorem dropWhile_append_eq_self (f : Char → Bool) (a x : PyStr)
    (h : a.dropWhile f = a) (hne : a ≠ []) :
    (a ++ x).dropWhile f = a ++ x := by
  cases a with
  | nil => exact absurd rfl hne
  | cons c t =>
    have hc : f c = false := by
      cases hfc : f c with
      | false => rfl
      | true =>
        rw [List.dropWhile_cons, hfc, if_pos rfl] at h
        have := dropWhile_length_le f t
        rw [h] at this
        simp at this
    rw [List.cons_append, List.dropWhile_cons, hc]
    simp

/-- Helper: stripping is the identity on a string with non-space first and
last ends. -/
theorem pyStrip_of_ends (a p b : PyStr)
    (ha : a.dropWhile pySpace = a) (hane : a ≠ [])
    (hb : b.reverse.dropWhile pySpace = b.reverse) (hbne : b ≠ []) :
    pyStrip (a ++ p ++ b) = a ++ p ++ b := by
  have h1 : (a ++ p ++ b).dropWhile pySpace = a ++ p ++ b := by
    rw [List.append_assoc]
    exact dropWhile_append_eq_self pySpace a (p ++ b) ha hane
  have h2 : (a ++ p ++ b).reverse.dropWhile pySpace = (a ++ p ++ b).reverse := by
    rw [List.reverse_append]
    exact dropWhile_append_eq_self pySpace b.reverse (a ++ p).reverse hb
      (by simpa using hbne)
  unfold pyStrip
  rw [h1, h2, List.reverse_reverse]

/-- Helper: stripping ignores a leading whitespace character. -/
theorem pyStrip_cons_space (c : Char) (l : PyStr) (hc : pySpace c = true) :
    pyStrip (c :: l) = pyStrip l := by
  unfold pyStrip
  rw [List.dropWhile_cons, hc, if_pos rfl]

/-- Helper: dropWhile through a trailing appended whitespace character. -/
theorem dropWhile_append_singleton (f : Char → Bool) (c : Char) (l : PyStr)
    (hc : f c = true) :
    (l ++ [c]).dropWhile f =
      if (l.dropWhile f).isEmpty then [] else l.dropWhile f ++ [c] := by
  induction l with
  | nil => simp [hc]
  | cons a t ih =>
    rw [List.cons_append, List.dropWhile_cons, List.dropWhile_cons]
    cases ha : f a with
    | true => simpa using ih
    | false => simp

/-- Helper: stripping ignores a trailing whitespace character. -/
theorem pyStrip_append_space (l : PyStr) (c : Char) (hc : pySpace c = true) :
    pyStrip (l ++ [c]) = pyStrip l := by
  unfold pyStrip
  rw [dropWhile_append_singleton pySpace c l hc]
  cases h : (l.dropWhile pySpace).isEmpty with
  | true =>
    rw [List.isEmpty_iff.mp h]
    simp
  | false =>
    simp only [Bool.false_eq_true, if_false, List.reverse_append,
      List.reverse_cons, List.reverse_nil, List.nil_append,
      List.singleton_append]
    rw [List.dropWhile_cons, hc, if_pos rfl]

/-- Helper: dropWhile is idempotent. -/
theorem dropWhile_idem (f : Char → Bool) (l : PyStr) :
    (l.dropWhile f).dropWhile f = l.dropWhile f := by
  induction l with
  | nil => simp
  | cons a t ih =>
    rw [List.dropWhile_cons]
    cases h : f a with
    | true => simpa using ih
    | false => simp [List.dropWhile_cons, h]

/-- Helper: the head surviving dropWhile fails the predicate. -/
theorem dropWhile_head_false (f : Char → Bool) (l : PyStr) (a : Char) (t : PyStr)
    (h : l.dropWhile f = a :: t) : f a = false := by
  induction l with
  | nil => simp at h
  | cons x xs ih =>
    rw [List.dropWhile_cons] at h
    cases hx : f x with
    | true => rw [hx, if_pos rfl] at h; exact ih h
    | false =>
      rw [hx] at h
      simp only [Bool.false_eq_true, if_false] at h
      cases h
      exact hx

/-- Helper: dropWhile splits its input into a prefix and the result. -/
theorem exists_prepend_dropWhile (f : Char → Bool) (l : PyStr) :
    ∃ s, l = s ++ l.dropWhile f := by
  induction l with
  | nil => exact ⟨[], rfl⟩
  | cons a t ih =>
    rw [List.dropWhile_cons]
    cases h : f a with
    | true =>
      obtain ⟨s, hs⟩ := ih
      refine ⟨a :: s, ?_⟩
      rw [if_pos rfl, List.cons_append]
      exact congrArg (a :: ·) hs
    | false =>
      refine ⟨[], ?_⟩
      simp

/-- Helper: a stripped string has no leading whitespace left. -/
theorem pyStrip_dropWhile_self (m : PyStr) :
    (pyStrip m).dropWhile pySpace = pyStrip m := by
  have hSm : pyStrip m = ((m.dropWhile pySpace).reverse.dropWhile pySpace).reverse := rfl
  rw [hSm]
  cases hB : (m.dropWhile pySpace).reverse.dropWhile pySpace with
  | nil => simp
  | cons b bt =>
    obtain ⟨pre, hpre⟩ := exists_prepend_dropWhile pySpace (m.dropWhile pySpace).reverse
    rw [hB] at hpre
    have hA := congrArg List.reverse hpre
    rw [List.reverse_reverse, List.reverse_append] at hA
    cases hrev : (b :: bt).reverse with
    | nil => simp at hrev
    | cons c ct =>
      rw [hrev, List.cons_append] at hA
      have hfc : pySpace c = false := dropWhile_head_false pySpace m c _ hA
      rw [List.dropWhile_cons, hfc]
      simp

/-- Helper: Python strip is idempotent. -/
theorem pyStrip_idem (l : PyStr) : pyStrip (pyStrip l) = pyStrip l := by
  have hXr : (pyStrip l).reverse = (l.dropWhile pySpace).reverse.dropWhile pySpace := by
    unfold pyStrip
    rw [List.reverse_reverse]
  have h2 : (pyStrip l).reverse.dropWhile pySpace = (pyStrip l).reverse := by
    rw [hXr]
    exact dropWhile_idem pySpace _
  have hout : pyStrip (pyStrip l) =
      (((pyStrip l).dropWhile pySpace).reverse.dropWhile pySpace).reverse := rfl
  rw [hout, pyStrip_dropWhile_self l, h2, List.reverse_reverse]

/-- Helper: a list is a Boolean prefix of itself followed by anything. -/
theorem isPrefixOf_append_self (a x : PyStr) : a.isPrefixOf (a ++ x) = true := by
  induction a with
  | nil => cases x <;> rfl
  | cons c t ih =>
    show (c == c && t.isPrefixOf (t ++ x)) = true
    simp [ih]

/-- Helper: transitivity of the Boolean prefix test. -/
theorem isPrefixOf_trans (a b c : PyStr) (hab : a.isPrefixOf b = true)
    (hbc : b.isPrefixOf c = true) : a.isPrefixOf c = true := by
  induction a generalizing b c with
  | nil => cases c <;> rfl
  | cons x xs ih =>
    cases b with
    | nil => exact absurd hab (by simp [List.isPrefixOf])
    | cons y ys =>
      cases c with
      | nil => exact absurd hbc (by simp [List.isPrefixOf])
      | cons z zs =>
        have hab' : (x == y && xs.isPrefixOf ys) = true := hab
        have hbc' : (y == z && ys.isPrefixOf zs) = true := hbc
        rw [Bool.and_eq_true] at hab' hbc'
        have hxy : x = y := eq_of_beq hab'.1
        have hyz : y = z := eq_of_beq hbc'.1
        show (x == z && xs.isPrefixOf zs) = true
        rw [Bool.and_eq_true]
        exact ⟨by rw [hxy, hyz]; exact beq_self_eq_true z,
          ih ys zs hab'.2 hbc'.2⟩

/-- Helper: a nonempty pattern whose head differs is not a prefix. -/
theorem isPrefixOf_cons_false (pre : PyStr) (c : Char) (t : PyStr)
    (hne : pre ≠ []) (hh : pre.head?.any (fun d => d == c) = false) :
    pre.isPrefixOf (c :: t) = false := by
  cases pre with
  | nil => exact absurd rfl hne
  | cons q qs =>
    have hqc : (q == c) = false := by simpa [List.head?, Option.any] using hh
    show (q == c && qs.isPrefixOf t) = false
    rw [hqc, Bool.false_and]

/-- Helper for C9: the markdown-stripping stage of `_parse_response` yields
the same text on a fenced, language-tagged wrapping of a payload as on the
bare payload, provided the stripped payload does not itself begin or end
with a fence — which holds for every string that decodes as JSON, since
JSON text never starts or ends with a backtick. -/
theorem extractJson_fenced (p : PyStr)
    (h1 : pyStartsWith (pyStrip p) "```".data = false)
    (h2 : pyEndsWith (pyStrip p) "```".data = false) :
    extractJson ("```json\n".data ++ p ++ "\n```".data) = extractJson p := by
  have hfjn : "```json\n".data = "```json".data ++ "\n".data := by decide
  have e0 : pyStrip ("```json\n".data ++ p ++ "\n```".data) =
      "```json\n".data ++ p ++ "\n```".data :=
    pyStrip_of_ends _ p _ (by decide) (by decide) (by decide) (by decide)
  have s1 : pyStartsWith ("```json\n".data ++ p ++ "\n```".data)
      "```json".data = true := by
    unfold pyStartsWith
    rw [hfjn]
    simp only [List.append_assoc]
    exact isPrefixOf_append_self _ _
  have d7 : ("```json\n".data ++ p ++ "\n```".data).drop 7 =
      "\n".data ++ (p ++ "\n```".data) := by
    rw [hfjn]
    simp only [List.append_assoc]
    exact List.drop_left' (by decide)
  have s2 : pyStartsWith ("\n".data ++ (p ++ "\n```".data)) "```".data = false := by
    unfold pyStartsWith
    show ("```".data).isPrefixOf ('\n' :: (p ++ "\n```".data)) = false
    exact isPrefixOf_cons_false _ _ _ (by decide) (by decide)
  have e3 : pyEndsWith ("\n".data ++ (p ++ "\n```".data)) "```".data = true := by
    unfold pyEndsWith
    rw [List.reverse_append, List.reverse_append]
    have htl : ("\n```".data).reverse = ("```".data).reverse ++ "\n".data := by decide
    rw [htl]
    simp only [List.append_assoc]
    exact isPrefixOf_append_self _ _
  have hsplit : "\n".data ++ (p ++ "\n```".data) =
      ("\n".data ++ (p ++ "\n".data)) ++ "```".data := by
    have hnt : "\n```".data = "\n".data ++ "```".data := by decide
    rw [hnt]
    simp only [List.append_assoc]
  have t3 : ("\n".data ++ (p ++ "\n```".data)).take
      (("\n".data ++ (p ++ "\n```".data)).length - 3) =
      "\n".data ++ (p ++ "\n".data) := by
    rw [hsplit]
    exact List.take_left' (by simp [List.length_append])
  have strip_fin : pyStrip ("\n".data ++ (p ++ "\n".data)) = pyStrip p := by
    have hcons : pyStrip ('\n' :: (p ++ "\n".data)) = pyStrip (p ++ "\n".data) :=
      pyStrip_cons_space '\n' _ (by decide)
    have happ : pyStrip (p ++ ['\n']) = pyStrip p :=
      pyStrip_append_space p '\n' (by decide)
    exact hcons.trans happ
  have h1j : pyStartsWith (pyStrip p) "```json".data = false := by
    cases hq : pyStartsWith (pyStrip p) "```json".data with
    | false => rfl
    | true =>
      have hq' : ("```json".data).isPrefixOf (pyStrip p) = true := hq
      have h3 : ("```".data).isPrefixOf (pyStrip p) = true :=
        isPrefixOf_trans "```".data "```json".data (pyStrip p) (by decide) hq'
      have h1' : ("```".data).isPrefixOf (pyStrip p) = false := h1
      rw [h3] at h1'
      cases h1'
  simp only [extractJson]
  rw [e0, s1, if_pos rfl, d7, s2]
  simp only [Bool.false_eq_true, if_false]
  rw [e3, if_pos rfl, t3, strip_fin]
  rw [h1j]
  simp only [Bool.false_eq_true, if_false]
  rw [h1]
  simp only [Bool.false_eq_true, if_false]
  rw [h2]
  simp only [Bool.false_eq_true, if_false]
  exact (pyStrip_idem p).symm

/-- C9: for every JSON payload — any text the decoder accepts; such text
never begins or ends with a backtick once stripped, which the two syntactic
hypotheses record — parsing the payload wrapped in a language-tagged fenced
code block with a trailing fence yields exactly the same structured result
as parsing the bare payload, whatever the decoder and environment. -/
theorem parse_response_fenced (decode : PyStr → Except PyStr Json)
    (env : ParseEnv) (p : PyStr)
    (_hjson : ∃ j, decode (extractJson p) = Except.ok j)
    (h1 : pyStartsWith (pyStrip p) "```".data = false)
    (h2 : pyEndsWith (pyStrip p) "```".data = false) :
    parse_response decode env ("```json\n".data ++ p ++ "\n```".data) =
      parse_response decode env p := by
  unfold parse_response
  rw [extractJson_fenced p h1 h2]

/-- Witness for C9 at the concrete payload of an empty JSON object. -/
theorem parse_response_fenced_witness :
    parse_response decode9 env0 ("```json\n".data ++ body9 ++ "\n```".data) =
      parse_response decode9 env0 body9 :=
  parse_response_fenced decode9 env0 body9 ⟨Json.obj [], by rfl⟩
    (by decide) (by decide)

end MacAgent
